import Mathlib

/-!
# Shallow embedding of `pipeit.py`

The module `pipeit.py` provides three wrapping factories, `pipe`, `pipe0`
and `pipestar`, each of which turns an ordinary function into a factory
whose calls capture positional and keyword arguments into a `Wrapper`
object; the `|` operator (Python's `__ror__` protocol on the wrapper)
then applies the wrapped function to the captured arguments plus the
piped value, inserted according to the factory's policy.

We model a Python callable as a function from a positional-argument list
and a keyword-argument list to a result-or-exception, threading an
explicit world state `σ` so that side effects (and their absence) are
observable.  Errors are split by provenance: an error raised by the
target function is tagged `PipeError.target`; the two errors Python's
runtime itself would raise around the wrappers — unpacking a
non-iterable piped value with `*arg`, and calling an object whose class
defines no `__call__` — are `PipeError.notIterable` and
`PipeError.notCallable`.
-/

/-- A Python callable: takes positional arguments, keyword arguments
(name/value pairs) and a world state, and returns either a value or an
exception of type `ε`, together with the possibly updated world. -/
structure PyFunc (σ ε α : Type) where
  call : List α → List (String × α) → σ → Except ε α × σ

/-- Outcome classification for an application performed through the
pipe operator: either the target raised (`target`), or the Python
runtime raised a TypeError unpacking a non-iterable (`notIterable`),
or a TypeError for calling a non-callable object (`notCallable`). -/
inductive PipeError (ε : Type) where
  | target : ε → PipeError ε
  | notIterable : PipeError ε
  | notCallable : PipeError ε
deriving DecidableEq

/-- The iteration protocol of the value domain `α`: `iter v = some xs`
when `v` is iterable with elements `xs`, `none` when `v` is not
iterable (so `*v` unpacking raises a TypeError). -/
structure PyIter (α : Type) where
  iter : α → Option (List α)

namespace pipe

/-- The capture class of `pipe` (src/pipeit.py lines 53-61):
`__slots__ = ('args', 'kwargs')`, plus the closed-over `func`. -/
structure Wrapper (σ ε α : Type) where
  func : PyFunc σ ε α
  args : List α
  kwargs : List (String × α)

/-- `pipe.Wrapper.__ror__` (src/pipeit.py lines 60-61):
`return func(*self.args, arg, **self.kwargs)` — the piped value is
appended after the captured positional arguments. -/
def Wrapper.ror {σ ε α : Type} (self : Wrapper σ ε α) (arg : α) (s : σ) :
    Except (PipeError ε) α × σ :=
  let r := self.func.call (self.args ++ [arg]) self.kwargs s
  (r.1.mapError PipeError.target, r.2)

/-- The method names defined in the class body of `pipe.Wrapper`
(src/pipeit.py lines 53-61): only `__new__` and `__ror__`. -/
def Wrapper.methodNames : List String := ["__new__", "__ror__"]

/-- The factory returned by `pipe(func)` (src/pipeit.py lines 62-64):
`return Wrapper(args, kwargs)` — a pure constructor application,
touching nothing in the world state. -/
def wrapper {σ ε α : Type} (func : PyFunc σ ε α) (args : List α)
    (kwargs : List (String × α)) (s : σ) : Wrapper σ ε α × σ :=
  (⟨func, args, kwargs⟩, s)

end pipe

namespace pipe0

/-- The capture class of `pipe0` (src/pipeit.py lines 82-90):
`__slots__ = ('args', 'kwargs')`, plus the closed-over `func`. -/
structure Wrapper (σ ε α : Type) where
  func : PyFunc σ ε α
  args : List α
  kwargs : List (String × α)

/-- `pipe0.Wrapper.__ror__` (src/pipeit.py lines 89-90):
`return func(*self.args, arg, **self.kwargs)` — note that, exactly as
in `pipe`, the piped value is appended after the captured positional
arguments, although `pipe0`'s docstring promises it comes first. -/
def Wrapper.ror {σ ε α : Type} (self : Wrapper σ ε α) (arg : α) (s : σ) :
    Except (PipeError ε) α × σ :=
  let r := self.func.call (self.args ++ [arg]) self.kwargs s
  (r.1.mapError PipeError.target, r.2)

/-- The method names defined in the class body of `pipe0.Wrapper`
(src/pipeit.py lines 82-90): only `__new__` and `__ror__`. -/
def Wrapper.methodNames : List String := ["__new__", "__ror__"]

/-- The factory returned by `pipe0(func)` (src/pipeit.py lines 91-93):
`return Wrapper(args, kwargs)`. -/
def wrapper {σ ε α : Type} (func : PyFunc σ ε α) (args : List α)
    (kwargs : List (String × α)) (s : σ) : Wrapper σ ε α × σ :=
  (⟨func, args, kwargs⟩, s)

end pipe0

namespace pipestar

/-- The capture class of `pipestar` (src/pipeit.py lines 105-113):
`__slots__ = ('args', 'kwargs')`, plus the closed-over `func`. -/
structure Wrapper (σ ε α : Type) where
  func : PyFunc σ ε α
  args : List α
  kwargs : List (String × α)

/-- `pipestar.Wrapper.__ror__` (src/pipeit.py lines 112-113):
`return func(*self.args, *arg, **self.kwargs)` — the piped value is
unpacked by the iteration protocol; a non-iterable piped value makes
the call expression itself raise a TypeError before `func` runs. -/
def Wrapper.ror {σ ε α : Type} (it : PyIter α) (self : Wrapper σ ε α)
    (arg : α) (s : σ) : Except (PipeError ε) α × σ :=
  match it.iter arg with
  | none => (Except.error PipeError.notIterable, s)
  | some xs =>
      let r := self.func.call (self.args ++ xs) self.kwargs s
      (r.1.mapError PipeError.target, r.2)

/-- The method names defined in the class body of `pipestar.Wrapper`
(src/pipeit.py lines 105-113): only `__new__` and `__ror__`. -/
def Wrapper.methodNames : List String := ["__new__", "__ror__"]

/-- The factory returned by `pipestar(func)` (src/pipeit.py lines 114-116):
`return Wrapper(args, kwargs)`. -/
def wrapper {σ ε α : Type} (func : PyFunc σ ε α) (args : List α)
    (kwargs : List (String × α)) (s : σ) : Wrapper σ ε α × σ :=
  (⟨func, args, kwargs⟩, s)

end pipestar

/-- Python's call protocol on an instance: `obj(...)` dispatches through
`type(obj).__call__`; when the class defines no `__call__`, the runtime
raises a TypeError and the dispatch body never runs. `methods` is the
list of method names the class defines and `dispatch` the body that
would run if `__call__` existed. -/
def classCall {σ ε α : Type} (methods : List String)
    (dispatch : σ → Except (PipeError ε) α × σ) (s : σ) :
    Except (PipeError ε) α × σ :=
  if methods.contains "__call__" then dispatch s
  else (Except.error PipeError.notCallable, s)

/-- A pipe application is transparent when its outcome is either a value
or an error raised by the target function itself — never an error
manufactured by the wrapping layer. -/
def targetOnly {ε α : Type} (res : Except (PipeError ε) α) : Prop :=
  (∃ r, res = Except.ok r) ∨ ∃ e, res = Except.error (PipeError.target e)

/-- A concrete Python value domain for test witnesses: integers and
(nested) lists. -/
inductive PyVal where
  | int : Int → PyVal
  | list : List PyVal → PyVal

/-- Structural equality test on `PyVal`. -/
def PyVal.beq : PyVal → PyVal → Bool
  | PyVal.int m, PyVal.int n => m == n
  | PyVal.list xs, PyVal.list ys => beqList xs ys
  | _, _ => false
where
  /-- Pointwise `PyVal.beq` on lists. -/
  beqList : List PyVal → List PyVal → Bool
    | [], [] => true
    | x :: xs, y :: ys => PyVal.beq x y && beqList xs ys
    | _, _ => false

/-- The iteration protocol on `PyVal`: lists are iterable, integers are
not. -/
def PyVal.pyIter : PyIter PyVal :=
  ⟨fun v => match v with
    | PyVal.list xs => some xs
    | PyVal.int _ => none⟩

/-- A test probe: a side-effect-free target function that returns the
tuple of the positional arguments it received, letting theorems observe
the exact argument order the wrappers assemble. -/
def argsTuple : PyFunc Unit String PyVal :=
  ⟨fun args _ s => (Except.ok (PyVal.list args), s)⟩

/-! ## The registration table (src/pipeit.py lines 119-137)

The module-level loops bind, for each listed standard function, both the
original name and its `p`-prefixed alias in the module globals to one
and the same wrapped object (`_g[name] = _g['p'+name] = ...`).  We model
a wrapped object by the identity of the function it wraps (host module
and attribute name) together with which factory wrapped it. -/

/-- Which wrapping factory produced a registered object. -/
inductive Kind where
  | pipe : Kind
  | pipe0 : Kind
  | pipestar : Kind
deriving DecidableEq

/-- The identity of a registered wrapped object: the host module and
attribute name of the function it wraps, and the factory that wrapped
it.  Two global names bound to the same `Wrapped` value model the same
object being installed under both names. -/
structure Wrapped where
  module : String
  name : String
  kind : Kind
deriving DecidableEq

/-- The names wrapped from `builtins` with `pipe`
(src/pipeit.py lines 120-123). -/
def builtinNames : List String :=
  ["all", "any", "dict", "enumerate", "filter", "len", "list", "min",
   "map", "max", "reversed", "set", "sum", "tuple", "zip"]

/-- The names wrapped from `builtins` with `pipestar`
(src/pipeit.py lines 124-126). -/
def printNames : List String := ["print"]

/-- The names wrapped from `itertools` with `pipe`
(src/pipeit.py lines 129-132). -/
def itertoolsNames : List String :=
  ["accumulate", "chain", "compress", "cycle", "dropwhile", "filterfalse",
   "groupby", "product", "repeat", "starmap", "takewhile", "tee",
   "zip_longest"]

/-- The names wrapped from `functools` with `pipe`
(src/pipeit.py lines 135-137). -/
def functoolsNames : List String := ["reduce"]

/-- The global bindings installed by the registration loops
(src/pipeit.py lines 119-137): for each listed name, both the bare name
and the `p`-prefixed alias are bound to the identical wrapped object;
`str.join` is installed as `join` / `pjoin` (line 127). -/
def registrationBindings : List (String × Wrapped) :=
  (builtinNames.map (fun n =>
    [(n, Wrapped.mk "builtins" n Kind.pipe),
     ("p" ++ n, Wrapped.mk "builtins" n Kind.pipe)])).flatten
  ++ (printNames.map (fun n =>
    [(n, Wrapped.mk "builtins" n Kind.pipestar),
     ("p" ++ n, Wrapped.mk "builtins" n Kind.pipestar)])).flatten
  ++ [("join", Wrapped.mk "str" "join" Kind.pipe),
      ("pjoin", Wrapped.mk "str" "join" Kind.pipe)]
  ++ (itertoolsNames.map (fun n =>
    [(n, Wrapped.mk "itertools" n Kind.pipe),
     ("p" ++ n, Wrapped.mk "itertools" n Kind.pipe)])).flatten
  ++ (functoolsNames.map (fun n =>
    [(n, Wrapped.mk "functools" n Kind.pipe),
     ("p" ++ n, Wrapped.mk "functools" n Kind.pipe)])).flatten

/-- Lookup in the module globals after registration. -/
def globalsMap (key : String) : Option Wrapped :=
  (registrationBindings.find? (fun b => b.1 == key)).map (fun b => b.2)

/-- `n` names a registered wrapped object that the module namespace
exposes under both the original name `n` and the alias `p ++ n`, with
the same object bound to both names, and whose recorded attribute name
is `n` itself. -/
def exposedBothNames (n : String) : Bool :=
  match globalsMap n with
  | some w => w.name == n && decide (globalsMap ("p" ++ n) = some w)
  | none => false

/-- The standard functions C10 lists as wrapped and doubly exposed. -/
def claimedNames : List String :=
  ["all", "any", "enumerate", "filter", "len", "map", "min", "max",
   "reversed", "set", "sum", "tuple", "zip", "print", "join",
   "accumulate", "chain", "compress", "cycle", "dropwhile", "filterfalse",
   "groupby", "product", "repeat", "starmap", "takewhile", "tee",
   "zip_longest", "reduce"]

/-! ## Model of `functools.reduce` for the fold claim

`functools.reduce` itself is standard-library code, not part of this
repository; it is modelled here from its documented behavior, restricted
to integer folds: `reduce(function, iterable)` folds the function over
the iterable using the first element as the start (erroring on an empty
iterable), and an explicit initial value may be supplied as a third
positional argument or — as the registration comment at
src/pipeit.py lines 133-134 directs — as the keyword argument
`initial`. -/

/-- Values for the reduce scenario: integers, integer sequences, and
binary integer functions. -/
inductive RVal where
  | int : Int → RVal
  | intlist : List Int → RVal
  | fn : (Int → Int → Int) → RVal

/-- Modelled from the spec: the underlying fold function
(`functools.reduce`), which is not part of this repository's source.
`reduce(f, xs)` folds `f` left over `xs` starting from its head;
`reduce(f, xs, v)` and `reduce(f, xs, initial=v)` fold starting
from `v`. -/
def reduceFunc : PyFunc Unit String RVal :=
  ⟨fun args kwargs s =>
    match args, kwargs with
    | [RVal.fn f, RVal.intlist xs], [] =>
        match xs with
        | [] => (Except.error "TypeError: reduce of empty iterable", s)
        | y :: ys => (Except.ok (RVal.int (ys.foldl f y)), s)
    | [RVal.fn f, RVal.intlist xs], [("initial", RVal.int v)] =>
        (Except.ok (RVal.int (xs.foldl f v)), s)
    | [RVal.fn f, RVal.intlist xs, RVal.int v], [] =>
        (Except.ok (RVal.int (xs.foldl f v)), s)
    | _, _ => (Except.error "TypeError", s)⟩

/-! ## Theorems -/

/-- Lifting a target-function outcome into the provenance-tagged error
classification never yields a module-generated error. -/
theorem targetOnly_mapError {ε α : Type} (r : Except ε α) :
    targetOnly (r.mapError (PipeError.target (ε := ε))) := by
  cases r with
  | ok v => exact Or.inl ⟨v, rfl⟩
  | error e => exact Or.inr ⟨e, rfl⟩

/-- C2: for every target function `f`, captured positional arguments
`(a, b)`, captured keyword argument `k = d` and piped value `x`, the
pipe operator applied to a capture from the `pipe` (APPEND_LAST)
factory invokes `f` with the piped value as last positional argument:
`x | pipe(f)(a, b, k=d)` returns `f(a, b, x, k=d)`. -/
theorem pipe_append_last {σ ε α : Type} (f : PyFunc σ ε α) (a b d x : α)
    (k : String) (s : σ) :
    pipe.Wrapper.ror ((pipe.wrapper f [a, b] [(k, d)] s).1) x s
      = ((f.call [a, b, x] [(k, d)] s).1.mapError PipeError.target,
         (f.call [a, b, x] [(k, d)] s).2) := rfl

/-- C1 counterexample: piping `0` into `pipe0(argsTuple)(1, 2)` calls the
target as `argsTuple(1, 2, 0)` — the piped value is appended after the
captured arguments, not prepended — so the result is the tuple
`(1, 2, 0)` and not the `(0, 1, 2)` that both the claim and `pipe0`'s
own docstring (`xs | pipe0(func)(a, b, c=d) = func(xs, a, b, c=d)`)
promise. -/
theorem pipe0_prepend_first_fails :
    (pipe0.Wrapper.ror
        ((pipe0.wrapper argsTuple [PyVal.int 1, PyVal.int 2] [] ()).1)
        (PyVal.int 0) ()).1
      = Except.ok (PyVal.list [PyVal.int 1, PyVal.int 2, PyVal.int 0])
    ∧ (pipe0.Wrapper.ror
        ((pipe0.wrapper argsTuple [PyVal.int 1, PyVal.int 2] [] ()).1)
        (PyVal.int 0) ()).1
      ≠ Except.ok (PyVal.list [PyVal.int 0, PyVal.int 1, PyVal.int 2]) := by
  refine ⟨rfl, fun h => ?_⟩
  simp [pipe0.Wrapper.ror, pipe0.wrapper, argsTuple, Except.mapError] at h

/-- C3: for every target `f`, captured argument `a` and piped value `x`
that the iteration protocol unpacks to elements `xs`, the pipe operator
applied to a capture from the `pipestar` (SPREAD_AFTER) factory invokes
`f` with those elements spread as individual positional arguments after
the captured one: `x | pipestar(f)(a)` returns `f(a, *x)`. -/
theorem pipestar_spread_after {σ ε α : Type} (it : PyIter α)
    (f : PyFunc σ ε α) (a x : α) (xs : List α) (s : σ)
    (h : it.iter x = some xs) :
    pipestar.Wrapper.ror it ((pipestar.wrapper f [a] [] s).1) x s
      = ((f.call (a :: xs) [] s).1.mapError PipeError.target,
         (f.call (a :: xs) [] s).2) := by
  simp [pipestar.Wrapper.ror, pipestar.wrapper, h]

/-- Witness for C3: `[1, 2] | pipestar(argsTuple)(5)` returns the tuple
`(5, 1, 2)`. -/
theorem pipestar_spread_after_witness :
    PyVal.pyIter.iter (PyVal.list [PyVal.int 1, PyVal.int 2])
        = some [PyVal.int 1, PyVal.int 2]
    ∧ pipestar.Wrapper.ror PyVal.pyIter
        ((pipestar.wrapper argsTuple [PyVal.int 5] [] ()).1)
        (PyVal.list [PyVal.int 1, PyVal.int 2]) ()
      = (Except.ok (PyVal.list [PyVal.int 5, PyVal.int 1, PyVal.int 2]),
         ()) :=
  ⟨rfl,
   (pipestar_spread_after PyVal.pyIter argsTuple (PyVal.int 5)
      (PyVal.list [PyVal.int 1, PyVal.int 2]) [PyVal.int 1, PyVal.int 2]
      () rfl).trans rfl⟩

/-- C4: calling any of the three factories only builds a capture: the
target function is never invoked, the world state is returned unchanged
(no side effects, no exception), and the capture stores the given
positional and keyword arguments verbatim together with the target. -/
theorem capture_creation_pure {σ ε α : Type} (f : PyFunc σ ε α)
    (args : List α) (kwargs : List (String × α)) (s : σ) :
    pipe.wrapper f args kwargs s = (⟨f, args, kwargs⟩, s)
    ∧ pipe0.wrapper f args kwargs s = (⟨f, args, kwargs⟩, s)
    ∧ pipestar.wrapper f args kwargs s = (⟨f, args, kwargs⟩, s) :=
  ⟨rfl, rfl, rfl⟩

/-- C5: the wrapping layer itself generates no error except one case —
applying a `pipestar` (SPREAD_AFTER) capture to a non-iterable piped
value raises the iteration TypeError, and does so exactly when the
piped value is not iterable; every other application outcome, for all
three policies, is either a value or an error raised by the target
function itself. -/
theorem module_errors_only_iteration {σ ε α : Type} (it : PyIter α)
    (w1 : pipe.Wrapper σ ε α) (w0 : pipe0.Wrapper σ ε α)
    (w2 : pipestar.Wrapper σ ε α) (x : α) (s : σ) :
    targetOnly (pipe.Wrapper.ror w1 x s).1
    ∧ targetOnly (pipe0.Wrapper.ror w0 x s).1
    ∧ ((pipestar.Wrapper.ror it w2 x s).1 = Except.error PipeError.notIterable
        ↔ it.iter x = none)
    ∧ (it.iter x = none ∨ targetOnly (pipestar.Wrapper.ror it w2 x s).1) := by
  refine ⟨targetOnly_mapError _, targetOnly_mapError _, ?_, ?_⟩
  · cases hx : it.iter x with
    | none => simp [pipestar.Wrapper.ror, hx]
    | some xs =>
        cases hc : (w2.func.call (w2.args ++ xs) w2.kwargs s).1 with
        | ok v => simp [pipestar.Wrapper.ror, hx, hc, Except.mapError]
        | error e => simp [pipestar.Wrapper.ror, hx, hc, Except.mapError]
  · cases hx : it.iter x with
    | none => exact Or.inl rfl
    | some xs =>
        refine Or.inr ?_
        unfold pipestar.Wrapper.ror
        rw [hx]
        exact targetOnly_mapError _

/-- C6: for every `pipe` capture and piped value, the pipe operator
succeeds with exactly the value the target function returns, fails with
exactly the error the target function raises (unchanged), and leaves
the world exactly as the target's own call left it — no wrapping and no
added laziness. -/
theorem pipe_application_transparent {σ ε α : Type}
    (w : pipe.Wrapper σ ε α) (x : α) (s : σ) :
    (∀ r, (pipe.Wrapper.ror w x s).1 = Except.ok r
        ↔ (w.func.call (w.args ++ [x]) w.kwargs s).1 = Except.ok r)
    ∧ (∀ e, (pipe.Wrapper.ror w x s).1 = Except.error (PipeError.target e)
        ↔ (w.func.call (w.args ++ [x]) w.kwargs s).1 = Except.error e)
    ∧ (pipe.Wrapper.ror w x s).2
        = (w.func.call (w.args ++ [x]) w.kwargs s).2 := by
  refine ⟨fun r => ?_, fun e => ?_, rfl⟩
  · cases hc : (w.func.call (w.args ++ [x]) w.kwargs s).1 with
    | ok v => simp [pipe.Wrapper.ror, hc, Except.mapError]
    | error e' => simp [pipe.Wrapper.ror, hc, Except.mapError]
  · cases hc : (w.func.call (w.args ++ [x]) w.kwargs s).1 with
    | ok v => simp [pipe.Wrapper.ror, hc, Except.mapError]
    | error e' => simp [pipe.Wrapper.ror, hc, Except.mapError]

/-- C7: none of the three capture classes defines `__call__`, so a
capture object is not callable: Python's call protocol on a capture
raises a TypeError without ever dispatching to a body — application can
be triggered solely by the pipe operation. -/
theorem capture_not_callable :
    pipe.Wrapper.methodNames.contains "__call__" = false
    ∧ pipe0.Wrapper.methodNames.contains "__call__" = false
    ∧ pipestar.Wrapper.methodNames.contains "__call__" = false
    ∧ (∀ (σ ε α : Type) (dispatch : σ → Except (PipeError ε) α × σ) (s : σ),
        classCall pipe.Wrapper.methodNames dispatch s
            = (Except.error PipeError.notCallable, s)
        ∧ classCall pipe0.Wrapper.methodNames dispatch s
            = (Except.error PipeError.notCallable, s)
        ∧ classCall pipestar.Wrapper.methodNames dispatch s
            = (Except.error PipeError.notCallable, s)) := by
  refine ⟨rfl, rfl, rfl, fun σ ε α dispatch s => ⟨?_, ?_, ?_⟩⟩ <;>
    simp [classCall, pipe.Wrapper.methodNames, pipe0.Wrapper.methodNames,
      pipestar.Wrapper.methodNames]

/-- C8: the factories produced by `pipe0` and `pipe` are observationally
identical — for every target function, captured arguments, keyword
arguments, piped value and world state, applying the pipe operator to
the `pipe0` capture performs exactly the same call as applying it to
the `pipe` capture, since both append the piped value after the
captured positional arguments. -/
theorem pipe0_pipe_equivalent {σ ε α : Type} (f : PyFunc σ ε α)
    (args : List α) (kwargs : List (String × α)) (x : α) (s : σ) :
    pipe0.Wrapper.ror ((pipe0.wrapper f args kwargs s).1) x s
      = pipe.Wrapper.ror ((pipe.wrapper f args kwargs s).1) x s := rfl

/-- C9: applying the wrapped fold factory with the initial value passed
as the keyword argument `initial` — `xs | preduce(f, initial=v)` —
returns the fold of `f` over `xs` starting from `v`, the same result as
calling the underlying fold function directly with that initial
value. -/
theorem preduce_initial_keyword (f : Int → Int → Int) (xs : List Int)
    (v : Int) (s : Unit) :
    pipe.Wrapper.ror
        ((pipe.wrapper reduceFunc [RVal.fn f] [("initial", RVal.int v)] s).1)
        (RVal.intlist xs) s
      = (Except.ok (RVal.int (xs.foldl f v)), s)
    ∧ reduceFunc.call [RVal.fn f, RVal.intlist xs, RVal.int v] [] s
      = (Except.ok (RVal.int (xs.foldl f v)), s) := ⟨rfl, rfl⟩

/-- C10: every standard function the claim lists — the wrapped builtins,
`print`, `str.join`, the itertools sequence functions and
`functools.reduce` — is registered and exposed in the module namespace
under both its original name and its `p`-prefixed alias, with the same
wrapped object bound to both names. -/
theorem registration_table_double_exposure :
    claimedNames.all exposedBothNames = true := by decide
